import Mathlib

/-!
Shallow embedding of the Twain Travel AI Assistant repository
(tool registry, weather service, book vector-store service, agent runner,
and the Gutenberg chunker), with theorems checking the specification's
claims against the embedded code.

External capabilities (the OpenWeatherMap HTTP API, the FAISS index and
embedding model, the Azure OpenAI chat model) are modelled as explicit
function parameters returning `Except`, so that "the capability raised an
exception" is an explicit value the embedded control flow can branch on.
Floating-point scalars that the code only ever renders into strings
(temperatures, wind speeds) are carried as their rendered strings, and
latitude/longitude, on which the code performs no arithmetic, as integers.
-/

/-! ## Tool registry (src/agents/travel_agent.py, src/agents/tools/__init__.py) -/

/-- Names of the tool functions defined in src/agents/tools and exported by
the package's all-list. -/
inductive ToolName : Type where
  | get_weather : ToolName
  | query_twain_book : ToolName
  | extract_locations_from_twain : ToolName
deriving DecidableEq, Repr

/-- travel_agent.py line 20: the tool list bound to the model and given to
the ToolNode, hence the set of tools invocable by the orchestrator. -/
def tools : List ToolName :=
  [ToolName.get_weather, ToolName.query_twain_book, ToolName.extract_locations_from_twain]

/-- travel_agent.py line 21. -/
def weather_tools : List ToolName := [ToolName.get_weather]

/-! ## Weather service (src/services/weather_service.py) -/

/-- Result of WeatherService.get_coordinates: (lat, lon, city_name, country).
The code performs no arithmetic on lat/lon, so they are carried as integers. -/
structure Coords : Type where
  lat : Int
  lon : Int
  city_name : String
  country : String
deriving DecidableEq, Repr

/-- The weather_info dictionary built by WeatherService.get_weather_by_coordinates.
Numeric fields hold the rendered value exactly as the formatter interpolates it. -/
structure WeatherInfo : Type where
  location : String
  country : String
  temperature : String
  feels_like : String
  humidity : String
  description : String
  main : String
  wind_speed : String
  units : String
deriving DecidableEq, Repr

/-- Python str.strip with no argument: leading and trailing whitespace
removed. -/
def pyStrip (s : String) : String :=
  String.mk (((s.data.dropWhile Char.isWhitespace).reverse.dropWhile Char.isWhitespace).reverse)

/-- Python str.capitalize: first character upper-cased, the rest lower-cased. -/
def pyCapitalize (s : String) : String :=
  match s.data with
  | [] => ""
  | c :: cs => String.mk (c.toUpper :: cs.map Char.toLower)

/-- WeatherService.format_weather_response (weather_service.py lines 178-212).
The argument is optional to model the falsy-dict guard at the top. -/
def format_weather_response (weather_info : Option WeatherInfo) : String :=
  match weather_info with
  | none => "Unable to fetch weather information."
  | some w =>
    let temp_symbol : String := if w.units = "metric" then "°C" else if w.units = "imperial" then "°F" else "K"
    let wind_unit : String := if w.units = "metric" then "m/s" else if w.units = "imperial" then "mph" else "m/s"
    "Current weather in " ++ w.location ++ ", " ++ w.country ++ ":\n" ++
    "Temperature: " ++ w.temperature ++ temp_symbol ++ " (feels like " ++ w.feels_like ++ temp_symbol ++ ")\n" ++
    "Conditions: " ++ pyCapitalize w.description ++ "\n" ++
    "Humidity: " ++ w.humidity ++ "%\n" ++
    "Wind Speed: " ++ w.wind_speed ++ " " ++ wind_unit

/-- The weather service as seen from the weather tool: its two HTTP-backed
methods. `Except.error` models a raised exception at the call boundary
(for stubbed services, e.g. in tests); returning `none` models the
method's own caught-and-converted failure path. -/
structure WeatherServiceM : Type where
  get_coordinates : String → Except String (Option Coords)
  get_weather_by_coordinates : Int → Int → String → String → String → Except String (Option WeatherInfo)

/-- The not-found reply of the get_weather tool (weather_tool.py lines 38-39). -/
def weatherNotFoundMsg (location : String) : String :=
  "I couldn't find the location '" ++ location ++
  "'. The city name may be incorrect or not recognized. Please verify the modern city name. "

/-- The fetch-failed reply of the get_weather tool (weather_tool.py line 51). -/
def weatherFetchFailMsg (city_name : String) : String :=
  "I couldn't fetch weather information for '" ++ city_name ++ "'. Please try again later."

/-- The reply of the get_weather tool's except branch (weather_tool.py line 55). -/
def weatherCaughtMsg (location : String) : String :=
  "I encountered an error while fetching weather information for '" ++ location ++ "'. Please try again later."

/-- The get_weather tool (weather_tool.py lines 11-55): geocode the location,
fetch conditions by coordinates, format; any exception is caught and turned
into a user-facing string. -/
def get_weather (svc : WeatherServiceM) (location : String) (units : String) : String :=
  let body : Except String String := do
    let coords ← svc.get_coordinates location
    match coords with
    | none => pure (weatherNotFoundMsg location)
    | some c => do
      let weather_info ← svc.get_weather_by_coordinates c.lat c.lon c.city_name c.country units
      match weather_info with
      | some w => pure (format_weather_response (some w))
      | none => pure (weatherFetchFailMsg c.city_name)
  match body with
  | Except.ok s => s
  | Except.error _ => weatherCaughtMsg location

/-! ## Book vector-store service (src/services/book_vectorstore_service.py) -/

/-- A LangChain Document as stored in the FAISS index: page content plus the
chapter metadata written by _load_and_index_chunks. -/
structure Doc : Type where
  page_content : String
  chunk_id : Nat
  chapter_number : String
  chapter_title : String
deriving DecidableEq, Repr

/-- Modelled from the spec: the FAISS vector store itself is an external
library, absent from the repository's files. Per section 4.2 of the spec,
a search ranks every stored entry by descending similarity to the query's
embedding (ties by ascending chunk id); `rank` returns that query-dependent
ranking of all stored documents, and may fail (index or embedding failure,
modelled as `Except.error`). -/
structure FaissStore : Type where
  rank : String → Except String (List Doc)

/-- Modelled from the spec (section 4.2): the underlying store's
similarity_search applies the metadata filter to the full ranking before
truncating to k, and never pads with non-matching entries. -/
def FaissStore.similarity_search (vs : FaissStore) (query : String) (k : Nat)
    (filter : Option String) : Except String (List Doc) :=
  match vs.rank query with
  | Except.error e => Except.error e
  | Except.ok ranked =>
    match filter with
    | none => Except.ok (ranked.take k)
    | some fc => Except.ok ((ranked.filter (fun d => d.chapter_number = fc)).take k)

/-- BookVectorStoreService state: the vector_store field, none until loaded. -/
structure BookVectorStoreService : Type where
  vector_store : Option FaissStore

/-- Modelled from the spec: TOP_K_RESULTS is imported by the tools from the
configuration surface (spec section 6, "top-k retrieval count — externally
supplied") but the constant is absent from the provided config.py; the
retrieval tool's comment fixes "top 3 most relevant passages". -/
def TOP_K_RESULTS : Nat := 3

/-- BookVectorStoreService.similarity_search (book_vectorstore_service.py
lines 118-156): raise if the store is not initialized; with a chapter filter,
ask the underlying store for 2*k filtered results and slice to k; any
exception inside the try is caught and an empty list returned. -/
def BookVectorStoreService.similarity_search (svc : BookVectorStoreService)
    (query : String) (k : Nat) (filter_chapter : Option String) :
    Except String (List Doc) :=
  match svc.vector_store with
  | none => Except.error "Vector store not initialized"
  | some vs =>
    let attempt : Except String (List Doc) :=
      match filter_chapter with
      | some fc =>
        match vs.similarity_search query (k * 2) (some fc) with
        | Except.ok results => Except.ok (results.take k)
        | Except.error e => Except.error e
      | none => vs.similarity_search query k none
    match attempt with
    | Except.ok results => Except.ok results
    | Except.error _ => Except.ok []

/-- The no-results reply of the query_twain_book tool (twain_query_tool.py lines 42-45). -/
def twainNotFoundMsg (query : String) : String :=
  "I couldn't find specific information about '" ++ query ++
  "' in 'The Innocents Abroad'. This might be outside the scope of Twain's travel memoir."

/-- The reply of the query_twain_book tool's except branch (twain_query_tool.py lines 68-71). -/
def twainCaughtMsg (query : String) : String :=
  "I encountered an error while searching for information about '" ++ query ++
  "' in Twain's book. Please try rephrasing your question."

/-- Formatting of retrieved passages (twain_query_tool.py lines 48-63):
a header part, then per document a chapter-reference part and a passage
part, joined with blank lines. -/
def formatTwainResults (results : List Doc) : String :=
  let parts : List String :=
    "Here's what Mark Twain wrote about that in 'The Innocents Abroad':\n" ::
    (results.map (fun d =>
      let chapter_ref : String :=
        "Chapter " ++ d.chapter_number ++
        (if d.chapter_title ≠ "" then " - " ++ d.chapter_title else "")
      ["\n\n**[" ++ chapter_ref ++ "]**", pyStrip d.page_content ++ "\n\n"])).flatten
  String.intercalate "\n\n" parts

/-- The query_twain_book tool (twain_query_tool.py lines 12-71): search the
book service; an empty result list gives the not-found reply; any exception
(e.g. an uninitialized vector store) is caught and turned into a user-facing
string. -/
def query_twain_book (book_service : BookVectorStoreService) (query : String) : String :=
  match book_service.similarity_search query TOP_K_RESULTS none with
  | Except.error _ => twainCaughtMsg query
  | Except.ok results =>
    if results.isEmpty then twainNotFoundMsg query
    else formatTwainResults results

/-! ## Agent orchestration (src/agents/travel_agent.py, src/agents/agent_run.py) -/

/-- A tool call requested by the model. -/
structure ToolCall : Type where
  name : String
  args : String
deriving DecidableEq, Repr

/-- Role of a message in the conversation context. -/
inductive Role : Type where
  | human : Role
  | ai : Role
  | tool : Role
deriving DecidableEq, Repr

/-- A conversation message; `tool_calls` is non-empty only on assistant
messages that request tool invocations. -/
structure Message : Type where
  role : Role
  content : String
  tool_calls : List ToolCall := []
deriving DecidableEq, Repr

/-- The model-invocation capability's reply (content, optionally tool calls). -/
structure ModelResponse : Type where
  content : String
  tool_calls : List ToolCall
deriving DecidableEq, Repr

/-- Errors the compiled graph can raise out of invoke: the langgraph
GraphRecursionError when the recursion limit is hit, or any exception
escaping the model-invocation capability. -/
inductive AgentError : Type where
  | recursionLimitExceeded : AgentError
  | modelFailure : String → AgentError
deriving DecidableEq, Repr

/-- The compiled two-node langgraph cycle (travel_agent.py lines 35-80):
agent node calls the model (the system-prompt prepending of twain_agent is
folded into the abstract `model` capability); should_continue routes to the
tools node exactly when the last message carries tool calls; the tools node
appends one tool message per requested call and loops back. The fuel
argument is the remaining recursion budget; exhausting it raises
GraphRecursionError. -/
def runGraph (model : List Message → Except String ModelResponse)
    (toolExec : ToolCall → String) :
    Nat → List Message → Except AgentError (List Message)
  | 0, _ => Except.error AgentError.recursionLimitExceeded
  | fuel + 1, msgs =>
    match model msgs with
    | Except.error e => Except.error (AgentError.modelFailure e)
    | Except.ok r =>
      let msgs' := msgs ++ [{ role := Role.ai, content := r.content, tool_calls := r.tool_calls }]
      if r.tool_calls.isEmpty then Except.ok msgs'
      else
        runGraph model toolExec fuel
          (msgs' ++ r.tool_calls.map (fun tc => { role := Role.tool, content := toolExec tc }))

/-- The compiled app_agent as invoked by the runner: messages in, recursion
limit from the config, final message list out (or a raised error). -/
def graphAgent (model : List Message → Except String ModelResponse)
    (toolExec : ToolCall → String) :
    List Message → Nat → Except AgentError (List Message) :=
  fun msgs limit => runGraph model toolExec limit msgs

/-- One entry of the database-format conversation history (agent_run.py line 27). -/
structure HistoryMsg : Type where
  content : String
  is_user : Bool
deriving DecidableEq, Repr

/-- AgentRunner._convert_history_to_messages (agent_run.py lines 21-38). -/
def convert_history_to_messages (conversation_history : List HistoryMsg) : List Message :=
  conversation_history.map (fun m =>
    if m.is_user then { role := Role.human, content := m.content }
    else { role := Role.ai, content := m.content })

/-- config.py line 48: AGENT_RECURSION_LIMIT, documented fallback 10. -/
def AGENT_RECURSION_LIMIT : Nat := 10

/-- The run configuration dict consumed by AgentRunner.run. -/
structure RunConfig : Type where
  recursion_limit : Option Nat := none
  conversation_history : Option (List HistoryMsg) := none

/-- Fallback when the agent's reply holds no extractable message (agent_run.py line 84). -/
def noResponseFallbackMsg : String :=
  "I'm sorry, I couldn't generate a response. Please try again."

/-- Fallback of the except branch at the run boundary (agent_run.py line 88). -/
def errorFallbackMsg : String :=
  "I apologize, but I encountered an error while processing your request. Please try again."

/-- AgentRunner.run (agent_run.py lines 40-88): default the recursion limit,
convert the history, append the query as a human message, invoke the agent,
extract the final message's content; any exception is caught and converted
to the fixed fallback string. -/
def AgentRunner.run (agent : List Message → Nat → Except AgentError (List Message))
    (query : String) (config : RunConfig) : String :=
  let limit := match config.recursion_limit with
    | some l => l
    | none => AGENT_RECURSION_LIMIT
  let history := match config.conversation_history with
    | some h => h
    | none => []
  let messages :=
    (if history.isEmpty then [] else convert_history_to_messages history) ++
    [({ role := Role.human, content := query } : Message)]
  match agent messages limit with
  | Except.ok msgs =>
    match msgs.getLast? with
    | some m => m.content
    | none => noResponseFallbackMsg
  | Except.error _ => errorFallbackMsg

/-! ## Chunker (src/data/gutenberg_downloader.py) -/

/-- A chapter as produced by GutenbergDownloader._extract_chapters. -/
structure Chapter : Type where
  chapter_number : String
  chapter_title : String
  content : String
deriving DecidableEq, Repr

/-- A chunk dictionary as built by GutenbergDownloader._create_text_chunks
(gutenberg_downloader.py lines 160-169). -/
structure Chunk : Type where
  id : Nat
  text : String
  length : Nat
  chunk_index : Nat
  chapter_number : String
  chapter_title : String
  chunk_in_chapter : Nat
  total_chunks_in_chapter : Nat
deriving DecidableEq, Repr

/-- The inner loop of _create_text_chunks over one chapter's split pieces:
`cid` is the running document-wide counter, `idx` the enumerate index. -/
def chunksOfPieces (ch : Chapter) (total : Nat) :
    Nat → Nat → List String → List Chunk
  | _, _, [] => []
  | cid, idx, t :: rest =>
    { id := cid, text := pyStrip t, length := t.length, chunk_index := cid,
      chapter_number := ch.chapter_number, chapter_title := ch.chapter_title,
      chunk_in_chapter := idx, total_chunks_in_chapter := total } ::
    chunksOfPieces ch total (cid + 1) (idx + 1) rest

/-- The outer loop of _create_text_chunks over chapters, threading the
document-wide chunk id counter. -/
def createTextChunksAux (split : String → List String) :
    List Chapter → Nat → List Chunk
  | [], _ => []
  | ch :: rest, cid =>
    let pieces := split ch.content
    chunksOfPieces ch pieces.length cid 0 pieces ++
    createTextChunksAux split rest (cid + pieces.length)

/-- GutenbergDownloader._create_text_chunks (lines 138-172), parametric in
the text-splitting function (the LangChain RecursiveCharacterTextSplitter
is an external library; the claims about ids hold for every splitter). -/
def createTextChunks (split : String → List String) (chapters : List Chapter) : List Chunk :=
  createTextChunksAux split chapters 0

/-- Modelled from the spec: the window decomposition of section 4.1 — the
RecursiveCharacterTextSplitter itself is an external library, absent from
the repository's files. Each window has length at most L; consecutive
windows start s characters apart, sharing L - s characters of overlap.
The first argument is fuel (one unit per emitted window). -/
def windowsGo (L s : Nat) : Nat → List Char → List (List Char)
  | 0, t => [t]
  | fuel + 1, t =>
    if t.length ≤ L then [t]
    else t.take L :: windowsGo L s fuel (t.drop s)

/-- Modelled from the spec (section 4.1): split a text into overlapping
windows; an empty section yields zero chunks. -/
def windows (L s : Nat) (t : List Char) : List (List Char) :=
  if t.isEmpty then [] else windowsGo L s t.length t

/-- Modelled from the spec: the spec's window splitter lifted to strings,
as passed to the chunker in place of the external LangChain splitter. -/
def specSplit (L s : Nat) (t : String) : List String :=
  (windows L s t.data).map (fun l => String.mk l)

/-- Concatenation of a chunk sequence after removing the configured overlap
`ov` from the front of every chunk but the first (the reconstruction
operation of the chunk-coverage property). -/
def joinMinusOverlap (ov : Nat) : List (List Char) → List Char
  | [] => []
  | w :: ws => w ++ (ws.map (fun x => x.drop ov)).flatten

/-- String version of `joinMinusOverlap`, applied to stored chunk texts. -/
def joinMinusOverlapStr (ov : Nat) : List String → String
  | [] => ""
  | w :: ws => w ++ String.join (ws.map (fun x => x.drop ov))

/-! ## Concrete stubs and records used by witnesses and counterexamples -/

/-- Template of the weather reply with the two unit symbols abstracted,
used to state which symbols the formatter picks. -/
def weatherResponseWith (w : WeatherInfo) (temp_symbol wind_unit : String) : String :=
  "Current weather in " ++ w.location ++ ", " ++ w.country ++ ":\n" ++
  "Temperature: " ++ w.temperature ++ temp_symbol ++ " (feels like " ++ w.feels_like ++ temp_symbol ++ ")\n" ++
  "Conditions: " ++ pyCapitalize w.description ++ "\n" ++
  "Humidity: " ++ w.humidity ++ "%\n" ++
  "Wind Speed: " ++ w.wind_speed ++ " " ++ wind_unit

/-- Weather service stub whose every capability call raises, as in the
spec's tool-fail-soft test scenario. -/
def raisingWeatherService : WeatherServiceM where
  get_coordinates := fun _ => Except.error "boom"
  get_weather_by_coordinates := fun _ _ _ _ _ => Except.error "boom"

/-- Book service before any index is built or loaded. -/
def uninitializedBookService : BookVectorStoreService where
  vector_store := none

/-- Concrete metric-units weather record for the C9 witness. -/
def wxMetric : WeatherInfo where
  location := "Paris"
  country := "FR"
  temperature := "15"
  feels_like := "14"
  humidity := "60"
  description := "clear sky"
  main := "Clear"
  wind_speed := "3"
  units := "metric"

/-- Concrete imperial-units weather record for the C9 witness. -/
def wxImperial : WeatherInfo :=
  { wxMetric with temperature := "59", feels_like := "57", wind_speed := "7", units := "imperial" }

/-- Concrete standard-units weather record for the C9 witness. -/
def wxStandard : WeatherInfo :=
  { wxMetric with temperature := "288", feels_like := "287", units := "standard" }

/-- Geocoder stub that resolves nothing, for the C10 witness. -/
def nowhereGeocoder : String → Except String (Option Coords) := fun _ => Except.ok none

/-- Conditions-fetch stub that returns no data, for the C10 witness. -/
def fetchNothing : Int → Int → String → String → String → Except String (Option WeatherInfo) :=
  fun _ _ _ _ _ => Except.ok none

/-- Conditions-fetch stub that raises, for the C10 witness. -/
def fetchRaising : Int → Int → String → String → String → Except String (Option WeatherInfo) :=
  fun _ _ _ _ _ => Except.error "down"

/-- The documents of `ranked` that match the chapter filter, in rank order. -/
def filterMatches (ranked : List Doc) (fc : String) : List Doc :=
  ranked.filter (fun d => d.chapter_number = fc)

/-- Two-chapter ranking used by the C6 and C7 witnesses. -/
def sampleRanked : List Doc :=
  [{ page_content := "p1", chunk_id := 0, chapter_number := "I", chapter_title := "A" },
   { page_content := "p2", chunk_id := 1, chapter_number := "II", chapter_title := "B" },
   { page_content := "p3", chunk_id := 2, chapter_number := "I", chapter_title := "A" }]

/-- Store stub whose ranking is `sampleRanked` for every query. -/
def sampleStore : FaissStore where
  rank := fun _ => Except.ok sampleRanked

/-- Model stub that always requests one tool call, for the C2 witness. -/
def alwaysToolModel : List Message → Except String ModelResponse :=
  fun _ => Except.ok { content := "", tool_calls := [{ name := "get_weather", args := "Paris" }] }

/-- A one-section document whose interior whitespace falls on a window
boundary, for the C5 counterexample. -/
def sampleChapter : Chapter where
  chapter_number := "I"
  chapter_title := "T"
  content := "ab cd"

/-! ## Theorems for the claims -/

/-- C1, counterexample: the registry does not contain exactly two tools —
travel_agent.py line 20 registers three, the third being
extract_locations_from_twain, so a tool other than the retrieval tool and
the location-weather tool is invocable by the orchestrator. -/
theorem tool_registry_not_two : tools.length ≠ 2 ∧ tools.length = 3 ∧
    ToolName.extract_locations_from_twain ∈ tools := by decide

/-- C1, amended: the registry contains exactly three registered tools, with
no duplicates — one location-weather tool and two retrieval tools
(query_twain_book and extract_locations_from_twain, both delegating to the
book retrieval service) — and every defined tool is registered, so nothing
else is invocable. -/
theorem tool_registry_exactly_three : tools.length = 3 ∧ tools.Nodup ∧
    ToolName.get_weather ∈ tools ∧ ToolName.query_twain_book ∈ tools ∧
    ToolName.extract_locations_from_twain ∈ tools ∧
    ∀ t : ToolName, t ∈ tools := by
  refine ⟨by decide, by decide, by decide, by decide, by decide, ?_⟩
  intro t
  cases t <;> decide

/-- C3: a registered tool never lets a capability failure escape — a weather
service whose geocoding call raises makes the get_weather tool return its
user-facing error string, and an uninitialized book vector store (whose
similarity_search raises) makes the query_twain_book tool return its
user-facing error string; both tools return plain strings, so the
orchestration loop can continue. -/
theorem tool_invoke_fail_soft (svcW : WeatherServiceM) (book : BookVectorStoreService)
    (e loc units q : String)
    (hW : svcW.get_coordinates loc = Except.error e)
    (hB : book.vector_store = none) :
    get_weather svcW loc units = weatherCaughtMsg loc ∧
    query_twain_book book q = twainCaughtMsg q := by
  constructor
  · simp only [get_weather, hW]
    rfl
  · simp [query_twain_book, BookVectorStoreService.similarity_search, hB]

/-- C3, witness: the always-raising weather stub and the uninitialized book
service at concrete inputs. -/
theorem tool_invoke_fail_soft_witness :
    get_weather raisingWeatherService "Paris" "metric" = weatherCaughtMsg "Paris" ∧
    query_twain_book uninitializedBookService "Sphinx" = twainCaughtMsg "Sphinx" :=
  tool_invoke_fail_soft raisingWeatherService uninitializedBookService
    "boom" "Paris" "metric" "Sphinx" rfl rfl

/-- C9: the formatted weather reply uses the unit symbols determined by the
units field — metric gives °C and m/s, imperial gives °F and mph, standard
gives K and m/s. -/
theorem weather_format_unit_symbols (w : WeatherInfo) :
    (w.units = "metric" → format_weather_response (some w) = weatherResponseWith w "°C" "m/s") ∧
    (w.units = "imperial" → format_weather_response (some w) = weatherResponseWith w "°F" "mph") ∧
    (w.units = "standard" → format_weather_response (some w) = weatherResponseWith w "K" "m/s") := by
  refine ⟨fun h => ?_, fun h => ?_, fun h => ?_⟩ <;>
    simp [format_weather_response, weatherResponseWith, h]

/-- C9, witness: the three unit values at concrete weather records. -/
theorem weather_format_unit_symbols_witness :
    format_weather_response (some wxMetric) = weatherResponseWith wxMetric "°C" "m/s" ∧
    format_weather_response (some wxImperial) = weatherResponseWith wxImperial "°F" "mph" ∧
    format_weather_response (some wxStandard) = weatherResponseWith wxStandard "K" "m/s" :=
  ⟨(weather_format_unit_symbols wxMetric).1 rfl,
   (weather_format_unit_symbols wxImperial).2.1 rfl,
   (weather_format_unit_symbols wxStandard).2.2 rfl⟩

/-- C10: when geocoding resolves to no result, the get_weather tool returns
the could-not-find message naming the input location (not the caught-error
message), and the result does not depend on the current-conditions fetch
capability at all — the fetch is never attempted. -/
theorem weather_unresolved_location
    (coordsFn : String → Except String (Option Coords))
    (fetchA fetchB : Int → Int → String → String → String → Except String (Option WeatherInfo))
    (loc units : String) (h : coordsFn loc = Except.ok none) :
    get_weather { get_coordinates := coordsFn, get_weather_by_coordinates := fetchA } loc units =
      weatherNotFoundMsg loc ∧
    get_weather { get_coordinates := coordsFn, get_weather_by_coordinates := fetchA } loc units =
      get_weather { get_coordinates := coordsFn, get_weather_by_coordinates := fetchB } loc units := by
  constructor
  · simp only [get_weather, h]
    rfl
  · simp only [get_weather, h]
    rfl

/-- C10, witness: a geocoder that finds nothing, under two fetch stubs that
differ, at a concrete location. -/
theorem weather_unresolved_location_witness :
    get_weather { get_coordinates := nowhereGeocoder, get_weather_by_coordinates := fetchNothing }
      "Atlantis" "metric" = weatherNotFoundMsg "Atlantis" ∧
    get_weather { get_coordinates := nowhereGeocoder, get_weather_by_coordinates := fetchNothing }
      "Atlantis" "metric" =
    get_weather { get_coordinates := nowhereGeocoder, get_weather_by_coordinates := fetchRaising }
      "Atlantis" "metric" :=
  weather_unresolved_location nowhereGeocoder fetchNothing fetchRaising "Atlantis" "metric" rfl

/-- C6: when a chapter filter is supplied, the service's search applies the
filter to the ranking before any truncation to k, so the result is exactly
the first k matching entries; if at most k stored entries match, all of
them (and nothing else) are returned; and every returned entry matches the
filter — the result is never padded with non-matching entries. -/
theorem similarity_search_filter_first (vs : FaissStore) (query fc : String) (k : Nat)
    (ranked : List Doc) (hr : vs.rank query = Except.ok ranked) :
    BookVectorStoreService.similarity_search ⟨some vs⟩ query k (some fc) =
      Except.ok ((filterMatches ranked fc).take k) ∧
    ((filterMatches ranked fc).length ≤ k →
      BookVectorStoreService.similarity_search ⟨some vs⟩ query k (some fc) =
        Except.ok (filterMatches ranked fc)) ∧
    (∀ d ∈ (filterMatches ranked fc).take k, d.chapter_number = fc) := by
  have hmain : BookVectorStoreService.similarity_search ⟨some vs⟩ query k (some fc) =
      Except.ok ((filterMatches ranked fc).take k) := by
    simp only [BookVectorStoreService.similarity_search, FaissStore.similarity_search, hr,
      filterMatches]
    rw [List.take_take, Nat.min_eq_left (by omega)]
  refine ⟨hmain, fun hlen => ?_, fun d hd => ?_⟩
  · rw [hmain, List.take_of_length_le hlen]
  · have hd' : d ∈ filterMatches ranked fc := List.mem_of_mem_take hd
    have := List.mem_filter.mp hd'
    exact of_decide_eq_true this.2

/-- C6, witness: filtering to chapter I with k = 3 on the sample store
returns exactly the two matching entries. -/
theorem similarity_search_filter_first_witness :
    BookVectorStoreService.similarity_search ⟨some sampleStore⟩ "probe" 3 (some "I") =
      Except.ok ((filterMatches sampleRanked "I").take 3) ∧
    ((filterMatches sampleRanked "I").length ≤ 3 →
      BookVectorStoreService.similarity_search ⟨some sampleStore⟩ "probe" 3 (some "I") =
        Except.ok (filterMatches sampleRanked "I")) ∧
    (∀ d ∈ (filterMatches sampleRanked "I").take 3, d.chapter_number = "I") :=
  similarity_search_filter_first sampleStore "probe" "I" 3 sampleRanked rfl

/-- C7: every in-repository caller passes k at least 1 (the tools use
TOP_K_RESULTS), and when k is at least the number of index entries the
search returns exactly the whole ranking — the same result as searching
with k equal to the index size, i.e. k is effectively clamped to the number
of entries. -/
theorem similarity_search_k_clamped (vs : FaissStore) (query : String) (k : Nat)
    (ranked : List Doc) (hr : vs.rank query = Except.ok ranked)
    (hk : ranked.length ≤ k) :
    1 ≤ TOP_K_RESULTS ∧
    BookVectorStoreService.similarity_search ⟨some vs⟩ query k none = Except.ok ranked ∧
    BookVectorStoreService.similarity_search ⟨some vs⟩ query k none =
      BookVectorStoreService.similarity_search ⟨some vs⟩ query ranked.length none := by
  refine ⟨by decide, ?_, ?_⟩ <;>
    simp [BookVectorStoreService.similarity_search, FaissStore.similarity_search, hr,
      List.take_of_length_le hk, List.take_of_length_le (Nat.le_refl ranked.length)]

/-- C7, witness: k = 5 exceeds the 3-entry sample index; the whole ranking
comes back, as with k = 3. -/
theorem similarity_search_k_clamped_witness :
    1 ≤ TOP_K_RESULTS ∧
    BookVectorStoreService.similarity_search ⟨some sampleStore⟩ "probe" 5 none =
      Except.ok sampleRanked ∧
    BookVectorStoreService.similarity_search ⟨some sampleStore⟩ "probe" 5 none =
      BookVectorStoreService.similarity_search ⟨some sampleStore⟩ "probe" sampleRanked.length none :=
  similarity_search_k_clamped sampleStore "probe" 5 sampleRanked rfl (by decide)

/-- C8, counterexample: a search whose underlying index/embedding fails is
not surfaced as an error — the service's except branch swallows it and
returns a successful empty list, the very value reserved for a query that
matched nothing. -/
theorem similarity_search_swallows_failure :
    BookVectorStoreService.similarity_search
      ⟨some { rank := fun _ => Except.error "embedding failure" }⟩ "probe" 3 none =
      Except.ok [] := rfl

/-- C8, amended: a search on an unbuilt/unloaded index does fail with the
not-initialized error, but a failure of the index or embedding during a
search is caught and returned as an empty successful result list,
indistinguishable from a query that matched nothing. -/
theorem similarity_search_error_modes (query : String) (k : Nat) (f : Option String)
    (vs : FaissStore) (e : String) (hr : vs.rank query = Except.error e) :
    BookVectorStoreService.similarity_search ⟨none⟩ query k f =
      Except.error "Vector store not initialized" ∧
    BookVectorStoreService.similarity_search ⟨some vs⟩ query k f = Except.ok [] := by
  constructor
  · rfl
  · cases f <;>
      simp [BookVectorStoreService.similarity_search, FaissStore.similarity_search, hr]

/-- C8, witness: the amended behavior at a concrete failing store. -/
theorem similarity_search_error_modes_witness :
    BookVectorStoreService.similarity_search ⟨none⟩ "probe" 3 none =
      Except.error "Vector store not initialized" ∧
    BookVectorStoreService.similarity_search
      ⟨some { rank := fun _ => Except.error "index failure" }⟩ "probe" 3 none =
      Except.ok [] :=
  similarity_search_error_modes "probe" 3 none
    { rank := fun _ => Except.error "index failure" } "index failure" rfl

/-- Helper: if the agent's invoke raises (whatever the error), the runner
returns the fixed fallback string. -/
theorem run_eq_fallback_of_error
    (agent : List Message → Nat → Except AgentError (List Message))
    (q : String) (cfg : RunConfig) (errOf : List Message → Nat → AgentError)
    (h : ∀ msgs limit, agent msgs limit = Except.error (errOf msgs limit)) :
    AgentRunner.run agent q cfg = errorFallbackMsg := by
  unfold AgentRunner.run
  simp only [h]

/-- Helper: a model-invocation capability that raises makes the whole graph
invoke raise (a model failure, or the recursion error on a zero budget). -/
theorem runGraph_model_error (toolExec : ToolCall → String) (e : String) :
    ∀ (fuel : Nat) (msgs : List Message),
      runGraph (fun _ => Except.error e) toolExec fuel msgs =
        Except.error (if fuel = 0 then AgentError.recursionLimitExceeded
          else AgentError.modelFailure e) := by
  intro fuel msgs
  cases fuel <;> rfl

/-- Helper: under a model stub that always requests a tool call, the graph
exhausts any recursion budget and raises the recursion-limit error. -/
theorem runGraph_always_tools (modelT : List Message → Except String ModelResponse)
    (toolExec : ToolCall → String)
    (hT : ∀ msgs, ∃ r, modelT msgs = Except.ok r ∧ r.tool_calls ≠ []) :
    ∀ (fuel : Nat) (msgs : List Message),
      runGraph modelT toolExec fuel msgs = Except.error AgentError.recursionLimitExceeded := by
  intro fuel
  induction fuel with
  | zero => intro msgs; rfl
  | succ n ih =>
    intro msgs
    obtain ⟨r, hr, hne⟩ := hT msgs
    cases htc : r.tool_calls with
    | nil => exact absurd htc hne
    | cons a as => simp [runGraph, hr, htc, ih]

/-- C2: whatever the query and configuration, the runner returns the fixed
fallback string both when the model-invocation capability raises and when
the model keeps requesting tool calls until the run's recursion limit is
exceeded; in both cases the caller receives a string, never an unhandled
fault. -/
theorem agent_run_fail_soft (q : String) (cfg : RunConfig) (toolExec : ToolCall → String)
    (e : String) (modelT : List Message → Except String ModelResponse)
    (hT : ∀ msgs, ∃ r, modelT msgs = Except.ok r ∧ r.tool_calls ≠ []) :
    AgentRunner.run (graphAgent (fun _ => Except.error e) toolExec) q cfg = errorFallbackMsg ∧
    AgentRunner.run (graphAgent modelT toolExec) q cfg = errorFallbackMsg := by
  constructor
  · exact run_eq_fallback_of_error _ q cfg _
      (fun msgs limit => runGraph_model_error toolExec e limit msgs)
  · exact run_eq_fallback_of_error _ q cfg (fun _ _ => AgentError.recursionLimitExceeded)
      (fun msgs limit => runGraph_always_tools modelT toolExec hT limit msgs)

/-- C2, witness: a raising model stub and the always-tool-calling model stub
at a concrete query and the default configuration. -/
theorem agent_run_fail_soft_witness :
    AgentRunner.run (graphAgent (fun _ => Except.error "rate limited") (fun _ => "result"))
      "What is the weather in Paris?" {} = errorFallbackMsg ∧
    AgentRunner.run (graphAgent alwaysToolModel (fun _ => "result"))
      "What is the weather in Paris?" {} = errorFallbackMsg :=
  agent_run_fail_soft "What is the weather in Paris?" {} (fun _ => "result") "rate limited"
    alwaysToolModel (fun _ => ⟨_, rfl, by decide⟩)

/-- Helper: the chunks of one chapter carry consecutive ids starting at the
running counter. -/
theorem chunksOfPieces_map_id (ch : Chapter) (total : Nat) :
    ∀ (ps : List String) (cid idx : Nat),
      (chunksOfPieces ch total cid idx ps).map Chunk.id = List.range' cid ps.length := by
  intro ps
  induction ps with
  | nil => intro cid idx; rfl
  | cons t rest ih =>
    intro cid idx
    simp [chunksOfPieces, List.range', ih]

/-- Helper: one chapter yields as many chunks as split pieces. -/
theorem chunksOfPieces_length (ch : Chapter) (total : Nat) :
    ∀ (ps : List String) (cid idx : Nat),
      (chunksOfPieces ch total cid idx ps).length = ps.length := by
  intro ps
  induction ps with
  | nil => intro cid idx; rfl
  | cons t rest ih =>
    intro cid idx
    simp [chunksOfPieces, ih]

/-- Helper: across all chapters the ids are the consecutive range starting
at the running counter's initial value. -/
theorem createTextChunksAux_map_id (split : String → List String) :
    ∀ (chapters : List Chapter) (cid : Nat),
      (createTextChunksAux split chapters cid).map Chunk.id =
        List.range' cid (createTextChunksAux split chapters cid).length := by
  intro chapters
  induction chapters with
  | nil => intro cid; rfl
  | cons ch rest ih =>
    intro cid
    simp only [createTextChunksAux, List.map_append, List.length_append,
      chunksOfPieces_map_id, chunksOfPieces_length, ih, List.range'_append_1]
    congr 1
    omega

/-- C4: for every document and every text splitter, the chunk ids output by
the chunker are exactly 0, 1, ..., n-1 in output order — a single running
counter over all sections — hence strictly increasing across the whole
chunk sequence, independent of the number of sections and unbroken by
sections that yield zero chunks. -/
theorem chunk_ids_monotone (split : String → List String) (chapters : List Chapter) :
    (createTextChunks split chapters).map Chunk.id =
      List.range ((createTextChunks split chapters).length) ∧
    ((createTextChunks split chapters).map Chunk.id).Pairwise (· < ·) := by
  have h : (createTextChunks split chapters).map Chunk.id =
      List.range ((createTextChunks split chapters).length) := by
    rw [List.range_eq_range']
    exact createTextChunksAux_map_id split chapters 0
  exact ⟨h, h ▸ List.pairwise_lt_range _⟩

/-- Helper: the window list is never empty and its head agrees with the
input on any prefix of length at most L. -/
theorem windowsGo_head (L s ov : Nat) (hovL : ov ≤ L) :
    ∀ (fuel : Nat) (u : List Char), ∃ hd rest,
      windowsGo L s fuel u = hd :: rest ∧ hd.take ov = u.take ov := by
  intro fuel u
  cases fuel with
  | zero => exact ⟨u, [], rfl, rfl⟩
  | succ n =>
    by_cases h : u.length ≤ L
    · exact ⟨u, [], by simp [windowsGo, h], rfl⟩
    · refine ⟨u.take L, windowsGo L s n (u.drop s), by simp [windowsGo, h], ?_⟩
      rw [List.take_take, Nat.min_eq_left hovL]

/-- Helper: removing the overlap from every window after the first and
concatenating reconstructs the input exactly, for any sufficient fuel. -/
theorem windowsGo_reconstruct (L s : Nat) (h1 : 1 ≤ s) (h2 : s ≤ L) :
    ∀ (fuel : Nat) (t : List Char), t.length ≤ fuel →
      joinMinusOverlap (L - s) (windowsGo L s fuel t) = t := by
  intro fuel
  induction fuel with
  | zero =>
    intro t ht
    have : t = [] := List.eq_nil_of_length_eq_zero (Nat.le_zero.mp ht)
    subst this
    rfl
  | succ n ih =>
    intro t ht
    by_cases hle : t.length ≤ L
    · simp [windowsGo, hle, joinMinusOverlap]
    · obtain ⟨hd, rest, hw, hhd⟩ := windowsGo_head L s (L - s) (Nat.sub_le L s) n (t.drop s)
      have hlen : (t.drop s).length ≤ n := by
        rw [List.length_drop]
        omega
      have hrec := ih (t.drop s) hlen
      rw [hw] at hrec
      simp only [windowsGo, if_neg hle, hw]
      show t.take L ++ (hd.drop (L - s) ++ (rest.map (fun x => x.drop (L - s))).flatten) = t
      have hJ : hd ++ (rest.map (fun x => x.drop (L - s))).flatten = t.drop s := hrec
      have htake : t.take L = t.take s ++ (t.drop s).take (L - s) := by
        rw [← List.take_add]
        congr 1
        omega
      rw [htake, ← hhd, List.append_assoc, ← List.append_assoc (hd.take (L - s)),
        List.take_append_drop, hJ, List.take_append_drop]

/-- Helper: reconstruction for the whole spec-modelled window split. -/
theorem windows_reconstruct (L s : Nat) (h1 : 1 ≤ s) (h2 : s ≤ L) (t : List Char) :
    joinMinusOverlap (L - s) (windows L s t) = t := by
  unfold windows
  by_cases h : t.isEmpty
  · rw [if_pos h, List.isEmpty_iff.mp h]
    rfl
  · rw [if_neg h]
    exact windowsGo_reconstruct L s h1 h2 t.length t (Nat.le_refl _)

/-- Helper: the stored texts of one chapter's chunks are its split pieces,
each stripped. -/
theorem chunksOfPieces_map_text (ch : Chapter) (total : Nat) :
    ∀ (ps : List String) (cid idx : Nat),
      (chunksOfPieces ch total cid idx ps).map Chunk.text = ps.map pyStrip := by
  intro ps
  induction ps with
  | nil => intro cid idx; rfl
  | cons t rest ih =>
    intro cid idx
    simp [chunksOfPieces, ih]

/-- Helper: across chapters, the stored texts are the per-chapter split
pieces, each stripped, in chapter order. -/
theorem createTextChunksAux_map_text (split : String → List String) :
    ∀ (chapters : List Chapter) (cid : Nat),
      (createTextChunksAux split chapters cid).map Chunk.text =
        (chapters.map (fun ch => (split ch.content).map pyStrip)).flatten := by
  intro chapters
  induction chapters with
  | nil => intro cid; rfl
  | cons ch rest ih =>
    intro cid
    simp [createTextChunksAux, chunksOfPieces_map_text, ih]

/-- C5, counterexample: chunking the section "ab cd" with window length 3
and step 3 (overlap 0) stores the stripped texts "ab" and "cd"; their
concatenation minus the configured overlap is "abcd", not the section text
"ab cd" — the boundary space was lost to the per-chunk strip, so characters
outside the overlap regions are not all preserved. -/
theorem chunk_coverage_not_exact :
    (createTextChunks (specSplit 3 3) [sampleChapter]).map Chunk.text = ["ab", "cd"] ∧
    joinMinusOverlapStr (3 - 3)
      ((createTextChunks (specSplit 3 3) [sampleChapter]).map Chunk.text) ≠ "ab cd" := by
  constructor
  · decide
  · decide

/-- C5, amended: the spec-modelled windows themselves reconstruct each
section exactly when the configured overlap is removed between consecutive
windows; the chunker stores each window stripped of leading and trailing
whitespace, so concatenating the stored chunk texts minus overlaps
reconstructs the section text exactly up to the whitespace stripped at
chunk boundaries (and exactly, wherever no whitespace borders a boundary). -/
theorem chunk_coverage_upto_strip (L s : Nat) (h1 : 1 ≤ s) (h2 : s ≤ L)
    (t : List Char) (chapters : List Chapter) :
    joinMinusOverlap (L - s) (windows L s t) = t ∧
    (createTextChunks (specSplit L s) chapters).map Chunk.text =
      (chapters.map (fun ch => (specSplit L s ch.content).map pyStrip)).flatten := by
  exact ⟨windows_reconstruct L s h1 h2 t,
    createTextChunksAux_map_text (specSplit L s) chapters 0⟩

/-- C5, witness: window length 3, step 2 (overlap 1) on the section
"ab cd": the windows reconstruct the text exactly, and the stored texts are
the stripped windows. -/
theorem chunk_coverage_upto_strip_witness :
    (1 ≤ 2 ∧ 2 ≤ 3) ∧
    (joinMinusOverlap (3 - 2) (windows 3 2 ("ab cd".data)) = "ab cd".data ∧
      (createTextChunks (specSplit 3 2) [sampleChapter]).map Chunk.text =
        ([sampleChapter].map (fun ch => (specSplit 3 2 ch.content).map pyStrip)).flatten) :=
  ⟨⟨by decide, by decide⟩,
    chunk_coverage_upto_strip 3 2 (by decide) (by decide) ("ab cd".data) [sampleChapter]⟩
